import Mathlib

/-!
Verification development for the screenshot-processor repository.

File contents are modelled as `List Char` (Python `str`); where Python code
works line-wise (`re.MULTILINE` substitution), contents are split on the
newline character `'\n'`, exactly the line structure that `^ ... $` with
`re.MULTILINE` sees.  External collaborators (Google Drive, the Gemini model,
TickTick, the system clock) are modelled as explicit parameters: the Clients
folder is a list of files, the AI reply is an oracle argument, and the
wall-clock date `date.today()` is an explicit `sysToday` argument.
-/

/-- Shorthand: a Lean string literal as the `List Char` it denotes. -/
def strL (s : String) : List Char := s.toList

/-- `hasPre p s` : `p` is a prefix of `s` (Python `s.startswith(p)` on the
relevant suffix). -/
def hasPre (p s : List Char) : Bool := decide (s.take p.length = p)

/-- First index at which `pat` occurs as a contiguous substring of `s`
(Python `s.index(pat)` / the position `pat in s` refers to); `none` when `pat`
does not occur.  The empty pattern occurs at index 0, as in Python. -/
def findSub (pat : List Char) : List Char → Option Nat
  | [] => if pat = [] then some 0 else none
  | c :: rest =>
    if hasPre pat (c :: rest) then some 0
    else (findSub pat rest).map (fun n => n + 1)

/-- Python `pat in s`. -/
def containsSub (pat s : List Char) : Bool := (findSub pat s).isSome

/-- Python `content.split("\n")`: splits on every newline, keeping empty
pieces; `splitLines [] = [[]]` just as `"".split("\n") == [""]`. -/
def splitLines : List Char → List (List Char)
  | [] => [[]]
  | c :: rest =>
    if c = '\n' then [] :: splitLines rest
    else
      match splitLines rest with
      | [] => [[c]]
      | l :: ls => (c :: l) :: ls

/-- Python `"\n".join(lines)`. -/
def joinLines : List (List Char) → List Char
  | [] => []
  | [l] => l
  | l :: ls => l ++ '\n' :: joinLines ls

/-- Replace the first line satisfying `p` by `r`, leaving all other lines
untouched — the line-wise effect of `re.sub(pattern, repl, content, count=1,
flags=re.MULTILINE)` when `pattern` is anchored as `^ ... $`. -/
def subFirstLine (p : List Char → Bool) (r : List Char) : List (List Char) → List (List Char)
  | [] => []
  | l :: ls => if p l then r :: ls else l :: subFirstLine p r ls

/-- A line matching the regex `^status: .+$`: it starts with `"status: "` and
has at least one further character (`.` does not match a newline, and lines
here contain none). -/
def statusLineMatch (l : List Char) : Bool :=
  hasPre (strL "status: ") l && decide ((strL "status: ").length < l.length)

/-- A line matching the regex `^last_updated: .+$`. -/
def lastUpdatedLineMatch (l : List Char) : Bool :=
  hasPre (strL "last_updated: ") l && decide ((strL "last_updated: ").length < l.length)

/-- `booking_manager._update_frontmatter_status`, the pure content transform:
read content, substitute the first `^status: .+$` line by
`status: <new_status>`, then the first `^last_updated: .+$` line by
`last_updated: <date>`, and write the result back.  Replacement strings are
inserted literally (the model is faithful for replacement values free of
regex escape sequences, i.e. containing no backslash, which all status values
and ISO dates are). -/
def updateFrontmatterStatus (newStatus todayIso content : List Char) : List Char :=
  joinLines
    (subFirstLine lastUpdatedLineMatch (strL "last_updated: " ++ todayIso)
      (subFirstLine statusLineMatch (strL "status: " ++ newStatus)
        (splitLines content)))

/-- The guarded drive operation in `_update_frontmatter_status`: the code
returns without writing when the file content is empty (`if not content`). -/
def updateFrontmatterStatusGuarded (newStatus todayIso content : List Char) : List Char :=
  if content = [] then content else updateFrontmatterStatus newStatus todayIso content

/-- End-of-file branch of `drive_ops.append_to_md`: if the current content
does not end with a newline one is added, then the fragment plus one final
newline is appended. -/
def appendAtEnd (current newContent : List Char) : List Char :=
  (if current.getLast? = some '\n' then current else current ++ ['\n'])
    ++ newContent ++ ['\n']

/-- `drive_ops.append_to_md` as a pure content transform.
If a non-empty heading is given (Python truthiness: the empty string counts
as no heading) and occurs as a substring of the current content, the fragment
plus a newline is inserted right after the first occurrence of the heading
text, additionally skipping one newline character when the occurrence is
directly followed by one.  Otherwise the fragment is appended at the end. -/
def appendToMd (current newContent : List Char) (underHeading : Option (List Char)) : List Char :=
  match underHeading with
  | none => appendAtEnd current newContent
  | some h =>
    if h = [] then appendAtEnd current newContent
    else
      match findSub h current with
      | none => appendAtEnd current newContent
      | some p =>
        let idx0 := p + h.length
        let idx := if current.getD idx0 'a' = '\n' then idx0 + 1 else idx0
        current.take idx ++ newContent ++ '\n' :: current.drop idx

/-! ## Booking manager (`src/booking_manager.py`) -/

/-- Python whitespace class `\s` (ASCII part). -/
def isSpaceChar (c : Char) : Bool :=
  c = ' ' || c = '\t' || c = '\n' || c = '\r' || c = '\x0b' || c = '\x0c'

/-- ASCII lowercasing, the fragment of Python `str.lower()` that matters for
`_slugify`: non-ASCII letters are left unchanged here and Python lowercases
them, but the subsequent character filter removes both the original and the
lowercased form (the composition agrees except for exotic code points such as
the Kelvin sign, which no claim involves). -/
def asciiLower (c : Char) : Char :=
  if 'A' ≤ c ∧ c ≤ 'Z' then Char.ofNat (c.toNat + 32) else c

/-- ASCII uppercasing. -/
def asciiUpper (c : Char) : Char :=
  if 'a' ≤ c ∧ c ≤ 'z' then Char.ofNat (c.toNat - 32) else c

/-- Python `str.lower()` on a whole string (ASCII model, see `asciiLower`). -/
def lowerL (s : List Char) : List Char := s.map asciiLower

/-- Python `str.strip()`: remove leading and trailing whitespace. -/
def pstrip (s : List Char) : List Char :=
  ((s.dropWhile isSpaceChar).reverse.dropWhile isSpaceChar).reverse

/-- A character kept by `re.sub(r"[^a-z0-9\s-]", "", slug)`. -/
def isSlugKeep (c : Char) : Bool :=
  (decide ('a' ≤ c) && decide (c ≤ 'z')) || (decide ('0' ≤ c) && decide (c ≤ '9'))
    || isSpaceChar c || c = '-'

/-- `re.sub(r"[\s]+", "-", slug)`: each maximal whitespace run becomes one
dash.  The flag records whether the previous character was whitespace. -/
def squashWs : Bool → List Char → List Char
  | _, [] => []
  | prevWs, c :: rest =>
    if isSpaceChar c then
      if prevWs then squashWs true rest else '-' :: squashWs true rest
    else c :: squashWs false rest

/-- `booking_manager._slugify`: lowercase, strip, drop characters outside
`[a-z0-9\s-]`, collapse whitespace runs to `-`, truncate to 50 characters. -/
def slugify (name : List Char) : List Char :=
  (squashWs false ((pstrip (lowerL name)).filter isSlugKeep)).take 50

/-- Python `"-".join(parts)` (and other separators). -/
def joinWith (sep : List Char) : List (List Char) → List Char
  | [] => []
  | [l] => l
  | l :: ls => l ++ sep ++ joinWith sep ls

/-- `booking_manager._build_client_filename`. -/
def buildClientFilename (clientName platform : List Char) : List Char :=
  joinWith (strL "-")
      ([slugify clientName] ++ (if platform = [] then [] else [slugify platform]))
    ++ strL ".md"

/-- One AI-extracted item (a Gemini JSON object).  `none` models an absent
key; a present key always maps to a string (items come from validated JSON
whose fields are strings or string lists, so JSON `null` is not modelled).
`type` and `content` are required: the router and formatter index them
unconditionally (`item["type"]`, `item["content"]`). -/
structure Item where
  type : List Char
  content : List Char
  priority : Option (List Char) := none
  due_date : Option (List Char) := none
  name : Option (List Char) := none
  handle : Option (List Char) := none
  platform : Option (List Char) := none
  role : Option (List Char) := none
  location : Option (List Char) := none
  shoot_type : Option (List Char) := none
  status : Option (List Char) := none
  tags : Option (List (List Char)) := none
  questions : Option (List (List Char)) := none
  project_hint : Option (List Char) := none
deriving DecidableEq

/-- Python `item.get(key) or default` for string fields: the default is used
both when the key is absent and when its value is the empty string. -/
def getOr (o : Option (List Char)) (d : List Char) : List Char :=
  match o with
  | none => d
  | some v => if v = [] then d else v

/-- Python `item.get(key) or []` for string-list fields. -/
def getOrList (o : Option (List (List Char))) : List (List Char) :=
  match o with
  | none => []
  | some v => v

/-- `STATUS_EMOJI.get(status, "🔴")`. -/
def statusEmoji (s : List Char) : List Char :=
  if s = strL "need-to-reply" then strL "🔴"
  else if s = strL "waiting" then strL "🟡"
  else if s = strL "confirmed" then strL "🟢"
  else if s = strL "completed" then strL "✅"
  else if s = strL "cancelled" then strL "❌"
  else strL "🔴"

/-- Python `str.title()` (ASCII model): the first letter of each letter run
is uppercased, later letters of the run lowercased; used on `shoot_type`,
which is ASCII. -/
def titleAux : Bool → List Char → List Char
  | _, [] => []
  | prevAlpha, c :: rest =>
    let isAlpha := (decide ('a' ≤ c) && decide (c ≤ 'z')) || (decide ('A' ≤ c) && decide (c ≤ 'Z'))
    (if isAlpha then (if prevAlpha then asciiLower c else asciiUpper c) else c)
      :: titleAux isAlpha rest

/-- Python `str.title()`. -/
def titleCase (s : List Char) : List Char := titleAux false s

/-- One file of the Clients folder on Drive: Drive id, filename, text
content. -/
structure DFile where
  id : Nat
  name : List Char
  content : List Char
deriving DecidableEq

/-- Strategy 1 of `_find_existing_client_file`: first file whose name equals
the expected filename case-insensitively. -/
def firstNameMatch (expected : List Char) : List DFile → Option Nat
  | [] => none
  | f :: fs =>
    if lowerL f.name = lowerL expected then some f.id else firstNameMatch expected fs

/-- Strategy 2 of `_find_existing_client_file`: first file whose lowercased
name contains the handle slug as a substring. -/
def firstHandleMatch (handleSlug : List Char) : List DFile → Option Nat
  | [] => none
  | f :: fs =>
    if containsSub handleSlug (lowerL f.name) then some f.id
    else firstHandleMatch handleSlug fs

/-- The matching logic of `booking_manager._find_existing_client_file` over a
folder listing `files`: exact-filename match first, then (when a handle is
present) substring match of `slugify(handle.lstrip("@"))`.  IMPORTANT: the
source function obtains `files` by calling `drive_ops.list_md_files`, an
attribute the module `drive_ops` does not define (see `driveOpsFunctions`),
so the real call raises `AttributeError` before this logic ever runs; this
definition embeds the continuation as written, which is dead code in the
source.  The faithful model of the call itself is
`findExistingClientFileChecked`. -/
def findExistingClientFile (files : List DFile) (clientName platform handle : List Char) :
    Option Nat :=
  match firstNameMatch (buildClientFilename clientName platform) files with
  | some fid => some fid
  | none =>
    if handle = [] then none
    else firstHandleMatch (slugify (handle.dropWhile (fun c => c = '@'))) files

/-- `booking_manager._build_new_client_content`. -/
def buildNewClientContent (item : Item) (sourceFilename todayIso suggestedReply : List Char) :
    List Char :=
  let clientName := getOr item.name (strL "Unknown Client")
  let handle := getOr item.handle []
  let platform := getOr item.platform (strL "Unknown")
  let shootType := getOr item.shoot_type (strL "general")
  let status := getOr item.status (strL "need-to-reply")
  let location := getOr item.location []
  let content := getOr (some item.content) []
  let questions := getOrList item.questions
  let dueDate := getOr item.due_date []
  let emoji := statusEmoji status
  let frontmatter :=
    [strL "---", strL "client: " ++ clientName]
      ++ (if handle = [] then [] else [strL "handle: \"" ++ handle ++ strL "\""])
      ++ [strL "platform: " ++ platform, strL "shoot_type: " ++ shootType,
          strL "status: " ++ status]
      ++ (if location = [] then [] else [strL "location: " ++ location])
      ++ (if dueDate = [] then [] else [strL "date_discussed: " ++ dueDate])
      ++ [strL "created: " ++ todayIso, strL "last_updated: " ++ todayIso,
          strL "tags: [booking, " ++ shootType ++ strL "]", strL "---"]
  let mdLines :=
    [joinLines frontmatter, [],
     strL "# " ++ clientName ++ strL " — " ++ titleCase shootType ++ strL " Session", [],
     strL "## Conversation Log",
     strL "### " ++ todayIso ++ strL " — " ++ platform,
     strL "- " ++ emoji ++ strL " **Status:** " ++ status,
     strL "- **Summary:** " ++ content]
      ++ (if questions = [] then []
          else [strL "- **Questions:**"] ++ questions.map (fun q => strL "  - " ++ q))
      ++ [strL "- _Source: " ++ sourceFilename ++ strL "_"]
      ++ (if suggestedReply = [] then []
          else [[], strL "## 💬 Suggested Reply", strL "> " ++ suggestedReply])
      ++ [[]]
  joinLines mdLines

/-- `booking_manager._build_update_content`. -/
def buildUpdateContent (item : Item) (sourceFilename todayIso suggestedReply : List Char) :
    List Char :=
  let platform := getOr item.platform (strL "Unknown")
  let status := getOr item.status (strL "need-to-reply")
  let content := getOr (some item.content) []
  let questions := getOrList item.questions
  let emoji := statusEmoji status
  let lines :=
    [[], strL "### " ++ todayIso ++ strL " — " ++ platform,
     strL "- " ++ emoji ++ strL " **Status:** " ++ status,
     strL "- **Summary:** " ++ content]
      ++ (if questions = [] then []
          else [strL "- **Questions:**"] ++ questions.map (fun q => strL "  - " ++ q))
      ++ [strL "- _Source: " ++ sourceFilename ++ strL "_"]
      ++ (if suggestedReply = [] then []
          else [[], strL "#### 💬 Suggested Reply", strL "> " ++ suggestedReply])
      ++ [[]]
  joinLines lines

/-- Read-modify-write of the file with Drive id `fid` (models
`read_md_file` + `_upload_content` on that file). -/
def storeSetContent (fid : Nat) (g : List Char → List Char) (files : List DFile) :
    List DFile :=
  files.map (fun f => if f.id = fid then { f with content := g f.content } else f)

/-- The reply produced by step 1 of `handle_booking`: the external AI call is
made only when the FAQ text is non-empty and the item has questions; its
output is the oracle argument `replyOracle`. -/
def suggestedReplyFor (faq : List Char) (questions : List (List Char))
    (replyOracle : List Char) : List Char :=
  if faq ≠ [] ∧ questions ≠ [] then replyOracle else []

/-- Result dict of `handle_booking`. -/
structure BookingResult where
  client_file : List Char
  status : List Char
  suggested_reply : List Char
deriving DecidableEq

/-- The find/create/update logic of `booking_manager.handle_booking` over the
Clients folder `store`, exactly as written in the source after its step 2
calls succeed: `faq` is the FAQ file text (empty when the FAQ file is
absent), `replyOracle` the reply the external AI would return, `todayIso`
the entry date in ISO form, and `freshId` the Drive id a newly created file
receives.  IMPORTANT: in the source this logic is never reached — step 2
raises `AttributeError` on every call, at `drive_ops.list_md_files` inside
`_find_existing_client_file` or at `drive_ops.create_folder` inside the
`_find_clients_folder_id` fallback, neither of which `drive_ops` defines
(see `driveOpsFunctions`) — so this definition is the dead continuation.
The faithful model of the source function is `handleBookingChecked`. -/
def handleBooking (item : Item) (sourceFilename todayIso faq replyOracle : List Char)
    (store : List DFile) (freshId : Nat) : List DFile × BookingResult :=
  let clientName := getOr item.name (strL "Unknown Client")
  let platform := getOr item.platform (strL "Unknown")
  let handle := getOr item.handle []
  let questions := getOrList item.questions
  let reply := suggestedReplyFor faq questions replyOracle
  let resultStatus := Option.getD item.status (strL "need-to-reply")
  match findExistingClientFile store clientName platform handle with
  | some fid =>
    let upd := buildUpdateContent item sourceFilename todayIso reply
    let store1 := storeSetContent fid (fun c => appendToMd c upd none) store
    let store2 :=
      storeSetContent fid (updateFrontmatterStatusGuarded resultStatus todayIso) store1
    (store2,
     ⟨strL "Updated: " ++ clientName ++ strL "-" ++ platform ++ strL ".md",
      resultStatus, reply⟩)
  | none =>
    let filename := buildClientFilename clientName platform
    let content := buildNewClientContent item sourceFilename todayIso reply
    (store ++ [⟨freshId, filename, content⟩],
     ⟨strL "Created: " ++ filename, resultStatus, reply⟩)

/-! ## Result schema validator (`src/gemini_analyzer.py`) -/

/-- One element of the extraction result's `items` array, as far as the
validators inspect it: whether it has a `type` key and a `content` key, and
the `type` value when present. -/
structure GItem where
  typeKey : Option (List Char)
  contentKey : Option (List Char)
deriving DecidableEq

/-- An extraction result as far as the validators inspect it: which required
top-level keys are present, whether `items` is a list, and the items
themselves. -/
structure GResult where
  hasSummary : Bool
  hasLanguage : Bool
  hasTranscript : Bool
  hasFilenameSuggestion : Bool
  hasItems : Bool
  itemsIsList : Bool
  items : List GItem
deriving DecidableEq

/-- The `valid_types` set of `_validate_result` (image inputs), exactly as
enumerated in the source — it includes `RECIPE` and `KNOWLEDGE`. -/
def validImageTypes : List (List Char) :=
  [strL "TASK", strL "EVENT", strL "IDEA", strL "DIARY", strL "REFERENCE",
   strL "FINANCE", strL "PERSON", strL "LOCATION", strL "INSPIRATION",
   strL "QUOTE", strL "LEARNING", strL "WISHLIST", strL "BOOKING",
   strL "RECIPE", strL "KNOWLEDGE"]

/-- The `valid_types` set of `_validate_text_result` (text inputs), exactly
as enumerated in the source — everything of `validImageTypes` except
`BOOKING` (in particular `INSPIRATION` is present). -/
def validTextTypes : List (List Char) :=
  [strL "TASK", strL "EVENT", strL "IDEA", strL "DIARY", strL "REFERENCE",
   strL "FINANCE", strL "PERSON", strL "LOCATION", strL "INSPIRATION",
   strL "QUOTE", strL "LEARNING", strL "WISHLIST",
   strL "RECIPE", strL "KNOWLEDGE"]

/-- The image-input valid set as the spec's words state it (spec §4.1/§6:
image inputs exclude RECIPE and KNOWLEDGE).  Stated only for comparison with
the source-derived `validImageTypes`. -/
def specImageTypes : List (List Char) :=
  [strL "TASK", strL "EVENT", strL "IDEA", strL "DIARY", strL "REFERENCE",
   strL "FINANCE", strL "PERSON", strL "LOCATION", strL "INSPIRATION",
   strL "QUOTE", strL "LEARNING", strL "WISHLIST", strL "BOOKING"]

/-- The text-input valid set as the spec's words state it (spec §4.1/§6:
text inputs exclude INSPIRATION and BOOKING).  Stated only for comparison
with the source-derived `validTextTypes`. -/
def specTextTypes : List (List Char) :=
  [strL "TASK", strL "EVENT", strL "IDEA", strL "DIARY", strL "REFERENCE",
   strL "FINANCE", strL "PERSON", strL "LOCATION",
   strL "QUOTE", strL "LEARNING", strL "WISHLIST",
   strL "RECIPE", strL "KNOWLEDGE"]

/-- Per-item check shared by both validators: the item must carry `type` and
`content`, and the `type` value must lie in the given set. -/
def itemOk (valid : List (List Char)) (it : GItem) : Bool :=
  match it.typeKey, it.contentKey with
  | some t, some _ => decide (t ∈ valid)
  | _, _ => false

/-- `gemini_analyzer._validate_result` (image inputs) collapsed to a success
Boolean: all of `summary, language, transcript, filename_suggestion, items`
present, `items` a list, and every item well-formed with a type in
`validImageTypes`. -/
def validateResultOk (r : GResult) : Bool :=
  r.hasSummary && r.hasLanguage && r.hasTranscript && r.hasFilenameSuggestion
    && r.hasItems && r.itemsIsList && r.items.all (itemOk validImageTypes)

/-- `gemini_analyzer._validate_text_result` (text inputs): as above but
`transcript` is not required and the set is `validTextTypes`. -/
def validateTextResultOk (r : GResult) : Bool :=
  r.hasSummary && r.hasLanguage && r.hasFilenameSuggestion
    && r.hasItems && r.itemsIsList && r.items.all (itemOk validTextTypes)

/-! ## Formatter (`src/markdown_router.py`, `_format_item`) -/

/-- The priority-to-glyph table of the TASK branch, default empty. -/
def priorityGlyph (p : List Char) : List Char :=
  if p = strL "high" then strL "🔺"
  else if p = strL "medium" then strL "🔸"
  else if p = strL "low" then strL "🔹"
  else []

/-- `markdown_router._format_item`.  The source computes
`today = date.today().isoformat()` inside the function — the wall clock is an
implicit input, made explicit here as `sysTodayIso`; no date argument is
passed in by the caller. -/
def formatItem (it : Item) (sourceFilename _summary sysTodayIso : List Char) : List Char :=
  let content := it.content
  let prio := Option.getD it.priority (strL "medium")
  let tags := getOrList it.tags
  let lines :=
    if it.type = strL "TASK" then
      let d := getOr it.due_date []
      let dueStr := if d = [] then [] else strL " 📅 " ++ d
      [strL "- [ ] " ++ priorityGlyph prio ++ strL " " ++ content ++ dueStr]
    else if it.type = strL "PERSON" then
      let name := getOr it.name (pstrip (content.takeWhile (fun c => c ≠ '—')))
      let handle := getOr it.handle []
      let platform := getOr it.platform []
      let role := getOr it.role (strL "unknown")
      let location := getOr it.location []
      [strL "### " ++ name]
        ++ (if handle = [] then [] else [strL "- **Handle:** " ++ handle])
        ++ (if platform = [] then [] else [strL "- **Platform:** " ++ platform])
        ++ [strL "- **Role:** " ++ role]
        ++ (if tags = [] then [] else [strL "- **Tags:** " ++ joinWith (strL ", ") tags])
        ++ (if location = [] then [] else [strL "- **Location:** " ++ location])
        ++ [strL "- **Notes:** " ++ content, strL "- **Added:** " ++ sysTodayIso]
    else if it.type = strL "LOCATION" then
      let name := getOr it.name (pstrip (content.takeWhile (fun c => c ≠ '—')))
      let location := getOr it.location []
      [strL "### " ++ name]
        ++ (if location = [] then [] else [strL "- **Location:** " ++ location])
        ++ (if tags = [] then [] else [strL "- **Type:** " ++ joinWith (strL ", ") tags])
        ++ [strL "- **Notes:** " ++ content, strL "- **Added:** " ++ sysTodayIso]
    else if it.type = strL "INSPIRATION" then
      [strL "### " ++ content.take 80]
        ++ (if tags = [] then [] else [strL "- **Style:** " ++ joinWith (strL ", ") tags])
        ++ [strL "- **Notes:** " ++ content, strL "- **Added:** " ++ sysTodayIso]
    else if it.type = strL "QUOTE" then
      let name := getOr it.name []
      [strL "### " ++ content.take 80]
        ++ (if name = [] then [] else [strL "- **Author:** " ++ name])
        ++ (if tags = [] then [] else [strL "- **Tags:** " ++ joinWith (strL ", ") tags])
        ++ [strL "- **Added:** " ++ sysTodayIso]
    else if it.type = strL "LEARNING" then
      let name := getOr it.name (content.take 60)
      let platform := getOr it.platform []
      let handle := getOr it.handle []
      [strL "### " ++ name]
        ++ (if platform = [] then [] else [strL "- **Platform:** " ++ platform])
        ++ (if handle = [] then [] else [strL "- **Instructor:** " ++ handle])
        ++ (if tags = [] then [] else [strL "- **Topics:** " ++ joinWith (strL ", ") tags])
        ++ [strL "- **Notes:** " ++ content, strL "- **Added:** " ++ sysTodayIso]
    else if it.type = strL "WISHLIST" then
      [strL "### " ++ content.take 80]
        ++ (if tags = [] then [] else [strL "- **Category:** " ++ joinWith (strL ", ") tags])
        ++ [strL "- **Status:** 🔲 want", strL "- **Notes:** " ++ content,
            strL "- **Added:** " ++ sysTodayIso]
    else if it.type = strL "FINANCE" then
      [strL "| " ++ sysTodayIso ++ strL " | " ++ content ++ strL " | `screenshot` |"]
    else
      [strL "- " ++ content]
  joinLines (lines ++ [strL "  - _Source: " ++ sourceFilename ++ strL "_"])

/-! ## Router (`src/markdown_router.py`, `route_items`) and config routing
table (`src/config.py`, `ROUTE_MAP`) -/

/-- One entry of `config.ROUTE_MAP`. -/
structure RouteEntry where
  daily_note_heading : Option (List Char) := none
  extra_file : Option (List Char) := none
  ticktick : Bool := false
  booking : Bool := false
deriving DecidableEq

/-- `config.ROUTE_MAP` (with the `VAULT_PATHS` strings inlined as in the
source): `.get` on the routing dict. -/
def routeMap (t : List Char) : Option RouteEntry :=
  if t = strL "TASK" then
    some { daily_note_heading := some (strL "## Tasks"), ticktick := true }
  else if t = strL "EVENT" then
    some { daily_note_heading := some (strL "## Events"),
           extra_file := some (strL "2-Areas/Calendar/Events.md") }
  else if t = strL "IDEA" then
    some { extra_file := some (strL "3-Resources/Ideas/Ideas.md") }
  else if t = strL "DIARY" then
    some { daily_note_heading := some (strL "## Diary") }
  else if t = strL "REFERENCE" then
    some { extra_file := some (strL "3-Resources/References.md") }
  else if t = strL "FINANCE" then
    some { extra_file := some (strL "2-Areas/Finances/Transactions.md") }
  else if t = strL "PERSON" then
    some { extra_file := some (strL "3-Resources/People/People.md") }
  else if t = strL "LOCATION" then
    some { extra_file := some (strL "3-Resources/Places/Places.md") }
  else if t = strL "INSPIRATION" then
    some { extra_file := some (strL "3-Resources/Inspiration/Inspiration.md") }
  else if t = strL "QUOTE" then
    some { extra_file := some (strL "3-Resources/Quotes/Quotes.md") }
  else if t = strL "LEARNING" then
    some { extra_file := some (strL "3-Resources/Learning/Learning.md") }
  else if t = strL "WISHLIST" then
    some { extra_file := some (strL "3-Resources/Wishlist/Wishlist.md") }
  else if t = strL "BOOKING" then
    some { booking := true }
  else none

/-- One externally visible action attempted by the router for one item.  The
`Failed` variants record that the corresponding collaborator call raised and
the exception was caught and logged. -/
inductive Effect where
  | dailyApp (heading block : List Char)
  | dailyFailed
  | extraApp (path block : List Char)
  | extraFailed (path : List Char)
  | taskNew (it : Item)
  | taskFailed
  | bookingDone (clientFile : List Char)
  | bookingFailed
  | followUpTask (title priorityLevel : List Char)
deriving DecidableEq

/-- Title of the follow-up TickTick task that `route_items` enqueues for a
BOOKING item (source lines 100–116). -/
def followUpTitle (it : Item) : List Char :=
  let clientName := getOr it.name (strL "Client")
  let platform := getOr it.platform []
  let status := Option.getD it.status (strL "need-to-reply")
  if status = strL "need-to-reply" then
    strL "Reply to " ++ clientName ++ strL " — " ++ platform
  else if status = strL "waiting" then
    strL "Follow up with " ++ clientName ++ strL " — " ++ platform
  else if status = strL "confirmed" then
    strL "Prepare shoot for " ++ clientName ++ strL " — " ++ platform
  else
    strL "Booking: " ++ clientName ++ strL " — " ++ platform

/-- Priority of the follow-up TickTick task for a BOOKING item. -/
def followUpPriority (it : Item) : List Char :=
  let status := Option.getD it.status (strL "need-to-reply")
  if status = strL "need-to-reply" then strL "high"
  else if status = strL "waiting" then strL "medium"
  else if status = strL "confirmed" then strL "high"
  else strL "medium"

/-- Environment of one `route_items` run: source attribution, summary, the
entry date `today = target_date or date.today()`, the wall-clock date used by
`_format_item`, whether TickTick is configured, FAQ text and AI reply oracle
for bookings, and per-item failure oracles saying which guarded collaborator
calls raise (their exceptions are caught per item).  In the source as
written the booking call raises `AttributeError` on every item (undefined
`drive_ops.list_md_files` / `create_folder`, see `handleBookingChecked`), so
the faithful instantiation of `failBooking` is the constant `true`; the
other oracles model network failures.  The daily note is assumed creatable
(a failure of the up-front `find_or_create_daily_note` would abort the whole
call, a case outside the per-item claims); the transcript string feeds only
the reply oracle. -/
structure RouteEnv where
  src : List Char
  summary : List Char
  today : List Char
  sysToday : List Char
  tt : Bool
  faq : List Char
  reply : Item → List Char
  failDaily : Nat → Bool
  failExtra : Nat → Bool
  failTask : Nat → Bool
  failBooking : Nat → Bool

/-- The four guarded effect blocks of the `route_items` loop body for one
item whose type has a routing entry `r`: daily-note append, extra-file
append, TickTick task for TASK items, and booking handling with its follow-up
task.  Returns the attempted effects plus the updated Clients store and fresh
Drive id counter.  A booking failure (`failBooking`) models the booking
`try` block raising, which also skips that item's follow-up task; in this
source every booking call does raise (`AttributeError` at the undefined
`drive_ops.list_md_files` / `create_folder`), so the non-failing booking
branch below is the source's dead continuation. -/
def itemActions (env : RouteEnv) (idx : Nat) (it : Item) (r : RouteEntry)
    (store : List DFile) (nid : Nat) : List Effect × List DFile × Nat :=
  let block := formatItem it env.src env.summary env.sysToday
  let e1 : List Effect :=
    match r.daily_note_heading with
    | some h => [if env.failDaily idx then Effect.dailyFailed else Effect.dailyApp h block]
    | none => []
  let e2 : List Effect :=
    match r.extra_file with
    | some p => [if env.failExtra idx then Effect.extraFailed p else Effect.extraApp p block]
    | none => []
  let e3 : List Effect :=
    if it.type = strL "TASK" ∧ env.tt then
      [if env.failTask idx then Effect.taskFailed else Effect.taskNew it]
    else []
  if r.booking then
    if env.failBooking idx then (e1 ++ e2 ++ e3 ++ [Effect.bookingFailed], store, nid)
    else
      let pr := handleBooking it env.src env.today env.faq (env.reply it) store nid
      let fu : List Effect :=
        if env.tt then [Effect.followUpTask (followUpTitle it) (followUpPriority it)]
        else []
      (e1 ++ e2 ++ e3 ++ [Effect.bookingDone pr.2.client_file] ++ fu, pr.1, nid + 1)
  else (e1 ++ e2 ++ e3, store, nid)

/-- `counts[item_type] = counts.get(item_type, 0) + 1` on the Python dict,
modelled as an insertion-ordered association list. -/
def bumpCount (t : List Char) : List (List Char × Nat) → List (List Char × Nat)
  | [] => [(t, 1)]
  | (k, v) :: rest => if k = t then (k, v + 1) :: rest else (k, v) :: bumpCount t rest

/-- `counts.get(t)` on the association list. -/
def lookupCount : List (List Char × Nat) → List Char → Option Nat
  | [], _ => none
  | (k, v) :: rest, t => if k = t then some v else lookupCount rest t

/-- Accumulated router state: the per-type count dict, the trace of attempted
external effects, the Clients folder, and the fresh Drive id counter. -/
structure RouteState where
  counts : List (List Char × Nat)
  trace : List Effect
  store : List DFile
  nextId : Nat

/-- The `for item in items` loop of `route_items`: unknown types are skipped
(`continue`) without touching the counts; for routed types the four effect
blocks run and the count is bumped exactly once at the end of the body. -/
def routeGo (env : RouteEnv) : Nat → List Item → RouteState → RouteState
  | _, [], st => st
  | idx, it :: rest, st =>
    match routeMap it.type with
    | none => routeGo env (idx + 1) rest st
    | some r =>
      let a := itemActions env idx it r st.store st.nextId
      routeGo env (idx + 1) rest
        ⟨bumpCount it.type st.counts, st.trace ++ a.1, a.2.1, a.2.2⟩

/-- `markdown_router.route_items`: `today = target_date or date.today()`,
then the item loop starting from empty counts and trace. -/
def routeItems (items : List Item) (summary sourceFilename : List Char)
    (targetDate : Option (List Char)) (sysToday : List Char) (tt : Bool)
    (faq : List Char) (reply : Item → List Char)
    (failDaily failExtra failTask failBooking : Nat → Bool)
    (store : List DFile) (nextId : Nat) : RouteState :=
  routeGo
    ⟨sourceFilename, summary, Option.getD targetDate sysToday, sysToday, tt, faq, reply,
     failDaily, failExtra, failTask, failBooking⟩
    0 items ⟨[], [], store, nextId⟩

/-! ## Entry point (`src/main.py`) and the storage module surface
(`src/drive_ops.py`) -/

/-- The complete list of functions the module `drive_ops` defines, read off
the source of `src/drive_ops.py`.  Note there is no `list_inbox_files`. -/
def driveOpsFunctions : List (List Char) :=
  [strL "_get_service", strL "_get_user_service", strL "list_images",
   strL "find_file_by_name", strL "find_folder_by_path", strL "download_image",
   strL "read_md_file", strL "append_to_md", strL "create_md_file",
   strL "_upload_content", strL "move_file", strL "rename_file",
   strL "find_or_create_daily_note"]

/-- The JSON body returned by the HTTP handler, abstracted to its shape:
a success summary with processed/error counts, the no-files body, an error
body (the `str(e)` text), a skipped body, or a proactive-action body. -/
inductive RespBody where
  | okBody (processed errorCount : Nat)
  | okNoFiles
  | errorBody (msg : List Char)
  | skippedBody (msg : List Char)
  | proactiveBody (action : List Char)
deriving DecidableEq

/-- How many inputs a response body reports as processed. -/
def processedCount : RespBody → Nat
  | RespBody.okBody p _ => p
  | _ => 0

/-- `main._handle_process_screenshots`: step 1 resolves the attribute
`drive_ops.list_inbox_files`; when the module does not define it, Python
raises `AttributeError`, the outer `except` catches it and the function
returns the error JSON with HTTP 500.  The whole remaining batch pipeline
(steps 1b–4) is the continuation `batchRun`, reached only if the attribute
existed. -/
def handleProcessScreenshots (batchRun : Unit → RespBody × Nat) : RespBody × Nat :=
  if strL "list_inbox_files" ∈ driveOpsFunctions then batchRun ()
  else (RespBody.errorBody (strL "module drive_ops has no attribute list_inbox_files"), 500)

/-- `main.process_screenshots`: dispatch on the `action` field of the request
body (absent or unparseable bodies yield the empty string); the three
proactive actions go to their handlers (abstracted as `proactive`), anything
else falls through to screenshot processing. -/
def processScreenshots (action : List Char) (proactive : List Char → RespBody × Nat)
    (batchRun : Unit → RespBody × Nat) : RespBody × Nat :=
  if action = strL "morning_briefing" then proactive action
  else if action = strL "nudge" then proactive action
  else if action = strL "evening_review" then proactive action
  else handleProcessScreenshots batchRun

/-- `booking_manager._find_existing_client_file` as actually called: its
first statement resolves the attribute `drive_ops.list_md_files`; since the
module defines no such function, the lookup raises `AttributeError` and the
matching logic (`findExistingClientFile`) is never reached.  `files` is the
listing the call would have returned. -/
def findExistingClientFileChecked (files : List DFile)
    (clientName platform handle : List Char) : Except (List Char) (Option Nat) :=
  if strL "list_md_files" ∈ driveOpsFunctions then
    Except.ok (findExistingClientFile files clientName platform handle)
  else Except.error (strL "module drive_ops has no attribute list_md_files")

/-- `booking_manager.handle_booking` as actually called, with the attribute
lookups of step 2 made explicit.  `clientsFolderExists` is the external
Drive state: whether `find_folder_by_path` resolves the full Clients path.
When it does not, the `_find_clients_folder_id` fallback reaches
`drive_ops.create_folder` (undefined — `AttributeError`); when it does,
`_find_existing_client_file` reaches `drive_ops.list_md_files` (undefined —
`AttributeError`).  Only if both attributes existed would the source
continue into the find/create/update logic `handleBooking`.  The raised
exception propagates to the caller before any file is created or written. -/
def handleBookingChecked (clientsFolderExists : Bool) (item : Item)
    (sourceFilename todayIso faq replyOracle : List Char) (store : List DFile)
    (freshId : Nat) : Except (List Char) (List DFile × BookingResult) :=
  if clientsFolderExists = false ∧ strL "create_folder" ∉ driveOpsFunctions then
    Except.error (strL "module drive_ops has no attribute create_folder")
  else
    match findExistingClientFileChecked store (getOr item.name (strL "Unknown Client"))
        (getOr item.platform (strL "Unknown")) (getOr item.handle []) with
    | Except.error e => Except.error e
    | Except.ok _ =>
      Except.ok (handleBooking item sourceFilename todayIso faq replyOracle store freshId)

/-! ## Concrete scenario inputs and observation helpers -/

/-- The follow-up TickTick tasks recorded in a router effect trace, as
(title, priority) pairs. -/
def followUpsOf (tr : List Effect) : List (List Char × List Char) :=
  tr.filterMap (fun e =>
    match e with
    | Effect.followUpTask t p => some (t, p)
    | _ => none)

/-- Scenario B, first BOOKING item: Maria on Instagram, need-to-reply. -/
def mariaItem1 : Item :=
  { type := strL "BOOKING", content := strL "Hi! Do you do couple shoots?",
    name := some (strL "Maria"), platform := some (strL "Instagram"),
    status := some (strL "need-to-reply") }

/-- A BOOKING item for an unseen client identity (Cyrillic name, empty
Clients folder): under the spec's invariant, processing it should leave the
folder with exactly one record for this identity. -/
def cyrItem1 : Item :=
  { type := strL "BOOKING", content := strL "Shoot request",
    name := some (strL "Мария"), platform := some (strL "Instagram"),
    status := some (strL "need-to-reply") }

/-- An image extraction result whose single item has type RECIPE. -/
def recipeImageResult : GResult :=
  { hasSummary := true, hasLanguage := true, hasTranscript := true,
    hasFilenameSuggestion := true, hasItems := true, itemsIsList := true,
    items := [⟨some (strL "RECIPE"), some (strL "Pasta")⟩] }

/-- A text extraction result whose single item has type INSPIRATION. -/
def inspirationTextResult : GResult :=
  { hasSummary := true, hasLanguage := true, hasTranscript := false,
    hasFilenameSuggestion := true, hasItems := true, itemsIsList := true,
    items := [⟨some (strL "INSPIRATION"), some (strL "Golden hour")⟩] }

/-- Scenario D input: a FINANCE item with content `Coffee €4.50`. -/
def coffeeItem : Item := { type := strL "FINANCE", content := strL "Coffee €4.50" }

/-- Router run for `coffeeItem` with `target_date = 2025-03-01` while the
wall clock reads 2025-03-02 (TickTick unconfigured, no failures, empty
Clients folder). -/
def coffeeRoute : RouteState :=
  routeItems [coffeeItem] [] (strL "img.png") (some (strL "2025-03-01"))
    (strL "2025-03-02") false [] (fun _ => []) (fun _ => false) (fun _ => false)
    (fun _ => false) (fun _ => false) [] 0

/-! ## Theorems -/

/-- The empty pattern occurs at index 0 of every string. -/
theorem findSub_nil_pat : ∀ s : List Char, findSub [] s = some 0 := by
  intro s
  cases s <;> simp [findSub, hasPre]

/-- Claim C10 (confirmed): the default process-inbox action is unreachable:
`drive_ops` defines no `list_inbox_files` (only `list_images`), so for every
invocation without an `action` discriminator the handler's first step raises
`AttributeError`, the invocation returns the error body with HTTP 500, and
the rest of the batch pipeline is never reached (the result is independent of
the continuation), processing zero inputs. -/
theorem c10_default_action_unreachable :
    strL "list_inbox_files" ∉ driveOpsFunctions
      ∧ strL "list_images" ∈ driveOpsFunctions
      ∧ ∀ (proactive : List Char → RespBody × Nat) (batchRun : Unit → RespBody × Nat),
          processScreenshots [] proactive batchRun
              = (RespBody.errorBody (strL "module drive_ops has no attribute list_inbox_files"),
                 500)
            ∧ processedCount (processScreenshots [] proactive batchRun).1 = 0 := by
  refine ⟨by decide, by decide, fun proactive batchRun => ⟨rfl, rfl⟩⟩

/-- Counterexample to claim C5: the image validator accepts an item of type
RECIPE (which the claim's image set excludes), and the text validator accepts
an item of type INSPIRATION (which the claim's text set excludes). -/
theorem c5_counterexample :
    validateResultOk recipeImageResult = true
      ∧ strL "RECIPE" ∉ specImageTypes
      ∧ validateTextResultOk inspirationTextResult = true
      ∧ strL "INSPIRATION" ∉ specTextTypes := by
  refine ⟨by decide, by decide, by decide, by decide⟩

/-- The per-item validator check, unfolded. -/
theorem itemOk_eq_true_iff (v : List (List Char)) (it : GItem) :
    itemOk v it = true
      ↔ ∃ t, it.typeKey = some t ∧ it.contentKey.isSome = true ∧ t ∈ v := by
  cases h1 : it.typeKey <;> cases h2 : it.contentKey <;> simp [itemOk, h1, h2]

/-- Claim C5 (corrected): validation succeeds exactly when the required
top-level keys are present, `items` is a list, and every item carries `type`
and `content` with the type in the per-kind set actually enumerated in the
source: for image inputs the full 15-type set (RECIPE and KNOWLEDGE
included), for text inputs the same set minus only BOOKING (INSPIRATION
included). -/
theorem c5_amended :
    (∀ r : GResult, validateResultOk r = true ↔
        (r.hasSummary = true ∧ r.hasLanguage = true ∧ r.hasTranscript = true
          ∧ r.hasFilenameSuggestion = true ∧ r.hasItems = true ∧ r.itemsIsList = true
          ∧ ∀ it ∈ r.items, ∃ t, it.typeKey = some t ∧ it.contentKey.isSome = true
              ∧ t ∈ validImageTypes))
      ∧ (∀ r : GResult, validateTextResultOk r = true ↔
          (r.hasSummary = true ∧ r.hasLanguage = true
            ∧ r.hasFilenameSuggestion = true ∧ r.hasItems = true ∧ r.itemsIsList = true
            ∧ ∀ it ∈ r.items, ∃ t, it.typeKey = some t ∧ it.contentKey.isSome = true
                ∧ t ∈ validTextTypes))
      ∧ validTextTypes = validImageTypes.erase (strL "BOOKING")
      ∧ strL "RECIPE" ∈ validImageTypes ∧ strL "KNOWLEDGE" ∈ validImageTypes
      ∧ strL "INSPIRATION" ∈ validTextTypes ∧ strL "BOOKING" ∉ validTextTypes := by
  refine ⟨fun r => ?_, fun r => ?_, by decide, by decide, by decide, by decide, by decide⟩
  · simp [validateResultOk, Bool.and_eq_true, List.all_eq_true, itemOk_eq_true_iff, and_assoc]
  · simp [validateTextResultOk, Bool.and_eq_true, List.all_eq_true, itemOk_eq_true_iff, and_assoc]

/-- Counterexample to claim C6: routing a FINANCE item with
`target_date = 2025-03-01` while the wall clock reads 2025-03-02 produces a
fragment whose table row carries the wall-clock date 2025-03-02; the row the
claim demands (with the supplied date 2025-03-01) appears nowhere in the
fragment. -/
theorem c6_counterexample :
    coffeeRoute.trace
        = [Effect.extraApp (strL "2-Areas/Finances/Transactions.md")
            (strL "| 2025-03-02 | Coffee €4.50 | `screenshot` |\n  - _Source: img.png_")]
      ∧ containsSub (strL "| 2025-03-01 | Coffee €4.50 | `screenshot` |")
          (strL "| 2025-03-02 | Coffee €4.50 | `screenshot` |\n  - _Source: img.png_")
          = false := by
  refine ⟨by decide, by decide⟩

/-- Claim C6 (corrected): `_format_item` takes no date argument; the FINANCE
row's date column is the wall-clock date `date.today()` at formatting time.
For every content, source and wall-clock date, the FINANCE fragment is the
single table row `| <wall-clock date> | <content> | [backtick]screenshot[backtick] |`
followed by the source-attribution line. -/
theorem c6_amended (c src sum d : List Char) :
    formatItem { type := strL "FINANCE", content := c } src sum d
      = strL "| " ++ d ++ strL " | " ++ c ++ strL " | `screenshot` |"
          ++ '\n' :: (strL "  - _Source: " ++ src ++ strL "_") := by
  rfl

/-- Counterexample to claim C7: when the prior content already ends in two
newline characters, the appended fragment is separated from the last
non-newline character by two newlines, not exactly one: the claim's
normalized result differs from what the code produces. -/
theorem c7_counterexample :
    appendToMd (strL "x\n\n") (strL "y") none = strL "x\n\ny\n"
      ∧ strL "x\n\ny\n" ≠ strL "x\ny\n" := by
  refine ⟨by decide, by decide⟩

/-- Claim C7 (corrected): when no heading is requested, or the requested
heading is absent from the content, the fragment goes to the true end of the
file; exactly one newline is inserted between prior content and fragment when
the prior content does not already end in a newline, and otherwise the prior
content (including however many trailing newlines it has) is kept unchanged
with the fragment appended directly after it. -/
theorem c7_amended (c f : List Char) (h? : Option (List Char))
    (habsent : h? = none ∨ ∃ hs, h? = some hs ∧ findSub hs c = none) :
    (c.getLast? ≠ some '\n' → appendToMd c f h? = (c ++ ['\n']) ++ f ++ ['\n'])
      ∧ (c.getLast? = some '\n' → appendToMd c f h? = c ++ f ++ ['\n']) := by
  have hend : appendToMd c f h? = appendAtEnd c f := by
    rcases habsent with h | ⟨hs, rfl, hfind⟩
    · rw [h]; rfl
    · by_cases hnil : hs = []
      · exfalso
        rw [hnil, findSub_nil_pat] at hfind
        exact Option.noConfusion hfind
      · simp [appendToMd, hnil, hfind]
  rw [hend]
  constructor
  · intro hne
    rw [appendAtEnd, if_neg hne]
  · intro heq
    rw [appendAtEnd, if_pos heq]

/-- Witness for `c7_amended`: the heading `## Absent` does not occur in the
content `x`, and the append lands at the end with exactly one separating
newline. -/
theorem c7_amended_witness :
    (strL "## Absent" ≠ [] ∧ findSub (strL "## Absent") (strL "x") = none
        ∧ (strL "x").getLast? ≠ some '\n')
      ∧ appendToMd (strL "x") (strL "y") (some (strL "## Absent"))
          = (strL "x" ++ ['\n']) ++ strL "y" ++ ['\n'] :=
  ⟨⟨by decide, by decide, by decide⟩,
   (c7_amended (strL "x") (strL "y") (some (strL "## Absent"))
      (Or.inr ⟨strL "## Absent", rfl, by decide⟩)).1 (by decide)⟩

/-- `subFirstLine` is replacement at the first matching index. -/
theorem subFirstLine_eq_set (p : List Char → Bool) (r : List Char) :
    ∀ ls : List (List Char), subFirstLine p r ls = ls.set (ls.findIdx p) r := by
  intro ls
  induction ls with
  | nil => rfl
  | cons l t ih =>
    by_cases h : p l
    · simp [subFirstLine, h, List.findIdx_cons]
    · simp [subFirstLine, h, List.findIdx_cons, ih]

/-- Replacing a non-matching element by a non-matching one does not move the
first matching index. -/
theorem findIdx_set_untouched (q : List Char → Bool) (r : List Char) :
    ∀ (ls : List (List Char)) (i : Nat),
      (∀ h : i < ls.length, q ls[i] = false) → q r = false →
      (ls.set i r).findIdx q = ls.findIdx q := by
  intro ls
  induction ls with
  | nil => intro i _ _; rfl
  | cons a t ih =>
    intro i hi hr
    cases i with
    | zero =>
      have ha : q a = false := hi (by simp)
      simp [List.findIdx_cons, ha, hr]
    | succ k =>
      have hrec : (t.set k r).findIdx q = t.findIdx q := by
        apply ih
        · intro h
          exact hi (Nat.succ_lt_succ h)
        · exact hr
      simp [List.findIdx_cons, hrec]

/-- A line matching `^status: .+$` starts with the character `s`. -/
theorem statusMatch_head {l : List Char} (h : statusLineMatch l = true) :
    ∃ t, l = 's' :: t := by
  cases l with
  | nil => exact absurd h (by decide)
  | cons c t =>
    refine ⟨t, ?_⟩
    simp only [statusLineMatch, hasPre, Bool.and_eq_true, decide_eq_true_eq] at h
    have h2 : c :: t.take 7 = 's' :: strL "tatus: " := h.1
    rw [(List.cons.inj h2).1]

/-- No line starting with `s` matches `^last_updated: .+$`. -/
theorem lastUpdated_false_of_s (t : List Char) :
    lastUpdatedLineMatch ('s' :: t) = false := by
  have hp : hasPre (strL "last_updated: ") ('s' :: t) = false := by
    apply decide_eq_false
    intro heq
    have h2 : 's' :: t.take 13 = 'l' :: strL "ast_updated: " := heq
    exact absurd (List.cons.inj h2).1 (by decide)
  simp [lastUpdatedLineMatch, hp]

/-- `getD` agrees with `getElem` inside bounds. -/
theorem getD_eq_getElem_of_lt (ls : List (List Char)) (i : Nat) (h : i < ls.length) :
    ls.getD i [] = ls[i] := by
  rw [List.getD_eq_getElem?_getD, List.getElem?_eq_getElem h]
  rfl

/-- Claim C3 (confirmed): for every content whose lines include a
front-matter `status: <value>` line and a `last_updated: <value>` line (each
with a non-empty value, as the regex `.+` requires), the rewrite replaces
exactly the first such status line by `status: <new>` and the first such
last_updated line by `last_updated: <date>` — two distinct lines — and every
other line is byte-for-byte unchanged. -/
theorem c3_frontmatter_rewrite_frame (content newStatus todayIso : List Char)
    (hs : ∃ l ∈ splitLines content, statusLineMatch l = true)
    (hu : ∃ l ∈ splitLines content, lastUpdatedLineMatch l = true) :
    updateFrontmatterStatus newStatus todayIso content
        = joinLines (((splitLines content).set
              ((splitLines content).findIdx statusLineMatch) (strL "status: " ++ newStatus)).set
            ((splitLines content).findIdx lastUpdatedLineMatch)
            (strL "last_updated: " ++ todayIso))
      ∧ (splitLines content).findIdx statusLineMatch < (splitLines content).length
      ∧ (splitLines content).findIdx lastUpdatedLineMatch < (splitLines content).length
      ∧ (splitLines content).findIdx statusLineMatch
          ≠ (splitLines content).findIdx lastUpdatedLineMatch
      ∧ ∀ k, k ≠ (splitLines content).findIdx statusLineMatch →
          k ≠ (splitLines content).findIdx lastUpdatedLineMatch →
          (((splitLines content).set
                ((splitLines content).findIdx statusLineMatch)
                (strL "status: " ++ newStatus)).set
              ((splitLines content).findIdx lastUpdatedLineMatch)
              (strL "last_updated: " ++ todayIso)).getD k []
            = (splitLines content).getD k [] := by
  have hi : (splitLines content).findIdx statusLineMatch < (splitLines content).length :=
    List.findIdx_lt_length_of_exists hs
  have hj : (splitLines content).findIdx lastUpdatedLineMatch < (splitLines content).length :=
    List.findIdx_lt_length_of_exists hu
  have hsi : statusLineMatch ((splitLines content).getD
      ((splitLines content).findIdx statusLineMatch) []) = true := by
    rw [getD_eq_getElem_of_lt _ _ hi]
    exact @List.findIdx_getElem _ _ _ hi
  have huj : lastUpdatedLineMatch ((splitLines content).getD
      ((splitLines content).findIdx lastUpdatedLineMatch) []) = true := by
    rw [getD_eq_getElem_of_lt _ _ hj]
    exact @List.findIdx_getElem _ _ _ hj
  obtain ⟨tl, htl⟩ := statusMatch_head hsi
  have hij : (splitLines content).findIdx statusLineMatch
      ≠ (splitLines content).findIdx lastUpdatedLineMatch := by
    intro he
    rw [← he, htl, lastUpdated_false_of_s] at huj
    exact Bool.false_ne_true huj
  have hrepl : lastUpdatedLineMatch (strL "status: " ++ newStatus) = false :=
    lastUpdated_false_of_s (strL "tatus: " ++ newStatus)
  have hmain : updateFrontmatterStatus newStatus todayIso content
      = joinLines (((splitLines content).set
            ((splitLines content).findIdx statusLineMatch) (strL "status: " ++ newStatus)).set
          ((splitLines content).findIdx lastUpdatedLineMatch)
          (strL "last_updated: " ++ todayIso)) := by
    rw [updateFrontmatterStatus, subFirstLine_eq_set, subFirstLine_eq_set]
    have hidx : List.findIdx lastUpdatedLineMatch
        ((splitLines content).set ((splitLines content).findIdx statusLineMatch)
          (strL "status: " ++ newStatus))
        = List.findIdx lastUpdatedLineMatch (splitLines content) := by
      apply findIdx_set_untouched
      · intro h
        rw [← getD_eq_getElem_of_lt _ _ h, htl, lastUpdated_false_of_s]
      · exact hrepl
    rw [hidx]
  refine ⟨hmain, hi, hj, hij, ?_⟩
  intro k hk1 hk2
  rw [List.getD_eq_getElem?_getD, List.getElem?_set_ne (Ne.symm hk2),
    List.getElem?_set_ne (Ne.symm hk1), ← List.getD_eq_getElem?_getD]

/-- Witness for `c3_frontmatter_rewrite_frame` at a concrete client file. -/
theorem c3_witness :
    (∃ l ∈ splitLines (strL "---\nclient: Maria\nstatus: need-to-reply\nlast_updated: 2025-03-01\n---\nbody"),
        statusLineMatch l = true)
      ∧ (∃ l ∈ splitLines (strL "---\nclient: Maria\nstatus: need-to-reply\nlast_updated: 2025-03-01\n---\nbody"),
          lastUpdatedLineMatch l = true)
      ∧ updateFrontmatterStatus (strL "confirmed") (strL "2025-03-02")
            (strL "---\nclient: Maria\nstatus: need-to-reply\nlast_updated: 2025-03-01\n---\nbody")
          = strL "---\nclient: Maria\nstatus: confirmed\nlast_updated: 2025-03-02\n---\nbody" := by
  refine ⟨by decide, by decide, ?_⟩
  have h := (c3_frontmatter_rewrite_frame
      (strL "---\nclient: Maria\nstatus: need-to-reply\nlast_updated: 2025-03-01\n---\nbody")
      (strL "confirmed") (strL "2025-03-02") (by decide) (by decide)).1
  rw [h]
  decide

/-- Soundness of `findSub`: the pattern occurs at the reported index. -/
theorem findSub_some_hasPre (pat : List Char) :
    ∀ (s : List Char) (p : Nat), findSub pat s = some p → hasPre pat (s.drop p) = true := by
  intro s
  induction s with
  | nil =>
    intro p hp
    by_cases h : pat = []
    · subst h
      simp only [findSub, if_true, eq_self_iff_true, Option.some.injEq] at hp
      subst hp
      simp [hasPre]
    · simp [findSub, h] at hp
  | cons c t ih =>
    intro p hp
    rw [findSub] at hp
    by_cases h : hasPre pat (c :: t) = true
    · rw [if_pos h] at hp
      have hp0 : p = 0 := (Option.some.inj hp).symm
      subst hp0
      exact h
    · rw [if_neg h] at hp
      simp only [Option.map_eq_some'] at hp
      obtain ⟨q, hq, rfl⟩ := hp
      exact ih q hq

/-- Minimality of `findSub`: the pattern does not occur strictly earlier. -/
theorem findSub_some_min (pat : List Char) :
    ∀ (s : List Char) (p : Nat), findSub pat s = some p →
      ∀ q, q < p → hasPre pat (s.drop q) = false := by
  intro s
  induction s with
  | nil =>
    intro p hp q hq
    by_cases h : pat = []
    · subst h
      simp only [findSub, if_true, eq_self_iff_true, Option.some.injEq] at hp
      omega
    · simp [findSub, h] at hp
  | cons c t ih =>
    intro p hp q hq
    rw [findSub] at hp
    by_cases h : hasPre pat (c :: t) = true
    · rw [if_pos h] at hp
      have hp0 : p = 0 := (Option.some.inj hp).symm
      omega
    · rw [if_neg h] at hp
      simp only [Option.map_eq_some'] at hp
      obtain ⟨r, hr, rfl⟩ := hp
      cases q with
      | zero => simpa using h
      | succ q2 => exact ih r hr q2 (Nat.lt_of_succ_lt_succ hq)

/-- Completeness of `findSub`: an occurrence that is first is the one
reported. -/
theorem findSub_eq_some_of (pat : List Char) :
    ∀ (s : List Char) (p : Nat), hasPre pat (s.drop p) = true →
      (∀ q, q < p → hasPre pat (s.drop q) = false) → findSub pat s = some p := by
  intro s
  induction s with
  | nil =>
    intro p hp hmin
    have hpat : pat = [] := by
      rw [List.drop_nil] at hp
      simpa [hasPre, eq_comm] using hp
    subst hpat
    have hp0 : p = 0 := by
      by_contra hne
      have := hmin 0 (Nat.pos_of_ne_zero hne)
      simp [hasPre] at this
    subst hp0
    rfl
  | cons c t ih =>
    intro p hp hmin
    rw [findSub]
    cases p with
    | zero =>
      have hp0 : hasPre pat (c :: t) = true := hp
      rw [if_pos hp0]
    | succ p2 =>
      have h0 : hasPre pat (c :: t) = false := by
        simpa using hmin 0 (Nat.succ_pos p2)
      rw [if_neg (by simp [h0])]
      rw [ih p2 hp (fun q hq => hmin (q + 1) (Nat.succ_lt_succ hq))]
      rfl

/-- `hasPre` at a position only inspects an initial segment: strings agreeing
on a long enough prefix agree on it. -/
theorem hasPre_drop_agree {s t : List Char} {n : Nat} (hst : s.take n = t.take n)
    (pat : List Char) (q : Nat) (hq : q + pat.length ≤ n) :
    hasPre pat (s.drop q) = hasPre pat (t.drop q) := by
  have hs : (s.drop q).take pat.length = (t.drop q).take pat.length := by
    have h1 : (s.drop q).take pat.length = ((s.take n).drop q).take pat.length := by
      rw [List.drop_take, List.take_take, min_eq_left (by omega)]
    have h2 : (t.drop q).take pat.length = ((t.take n).drop q).take pat.length := by
      rw [List.drop_take, List.take_take, min_eq_left (by omega)]
    rw [h1, h2, hst]
  simp [hasPre, hs]

/-- `getD` inside an initial segment on which two strings agree. -/
theorem getD_agree_of_take_eq {s t : List Char} {n : Nat} (hst : s.take n = t.take n)
    {k : Nat} (hk : k < n) (d : Char) : s.getD k d = t.getD k d := by
  rw [List.getD_eq_getElem?_getD, List.getD_eq_getElem?_getD]
  have h1 : s[k]? = (s.take n)[k]? := by rw [List.getElem?_take, if_pos hk]
  have h2 : t[k]? = (t.take n)[k]? := by rw [List.getElem?_take, if_pos hk]
  rw [h1, h2, hst]

/-- Taking the prefix up to the insertion point recovers the original
prefix. -/
theorem take_insert_eq (c f : List Char) (m : Nat) (hmle : m ≤ c.length) :
    (c.take m ++ f ++ '\n' :: c.drop m).take m = c.take m := by
  rw [List.append_assoc]
  exact List.take_left' (by rw [List.length_take]; exact min_eq_left hmle)

/-- Dropping up to the insertion point exposes the inserted fragment. -/
theorem drop_insert_eq (c f : List Char) (m : Nat) (hmle : m ≤ c.length) :
    (c.take m ++ f ++ '\n' :: c.drop m).drop m = f ++ '\n' :: c.drop m := by
  rw [List.append_assoc]
  exact List.drop_left' (by rw [List.length_take]; exact min_eq_left hmle)

/-- The heading branch of `append_to_md`, written out: insertion happens
right after the first occurrence of the heading text plus its following
newline. -/
theorem appendToMd_insert_after_line (c f h : List Char) (p : Nat)
    (hne : h ≠ []) (hp : findSub h c = some p)
    (hnl : c.getD (p + h.length) 'a' = '\n') :
    appendToMd c f (some h)
      = c.take (p + h.length + 1) ++ f ++ '\n' :: c.drop (p + h.length + 1) := by
  have hstep : appendToMd c f (some h)
      = (if h = [] then appendAtEnd c f else
          match findSub h c with
          | none => appendAtEnd c f
          | some p =>
            List.take (if c.getD (p + h.length) 'a' = '\n' then p + h.length + 1
                else p + h.length) c
              ++ f ++ '\n' :: List.drop (if c.getD (p + h.length) 'a' = '\n'
                then p + h.length + 1 else p + h.length) c) := rfl
  have hstep2 : appendToMd c f (some h)
      = List.take (if c.getD (p + h.length) 'a' = '\n' then p + h.length + 1
            else p + h.length) c
          ++ f ++ '\n' :: List.drop (if c.getD (p + h.length) 'a' = '\n'
            then p + h.length + 1 else p + h.length) c := by
    rw [hstep, if_neg hne, hp]
  rw [hstep2, if_pos hnl]

/-- Inserting after the first occurrence does not move the first
occurrence. -/
theorem findSub_insert_stable (c f h : List Char) (p : Nat)
    (hp : findSub h c = some p) (hlt : p + h.length < c.length) :
    findSub h (c.take (p + h.length + 1) ++ f ++ '\n' :: c.drop (p + h.length + 1))
      = some p := by
  have hmle : p + h.length + 1 ≤ c.length := by omega
  have htake := take_insert_eq c f (p + h.length + 1) hmle
  apply findSub_eq_some_of
  · rw [hasPre_drop_agree htake h p (by omega)]
    exact findSub_some_hasPre h c p hp
  · intro q hq
    rw [hasPre_drop_agree htake h q (by omega)]
    exact findSub_some_min h c p hp q hq

/-- Counterexample to claim C4: the heading text `## Tasks` occurs verbatim
in `## Tasks extra\nrest` (in the middle of a longer line); the code inserts
the fragment right after the occurrence, in the middle of that line — not
immediately after the heading's line as the claim states. -/
theorem c4_counterexample :
    containsSub (strL "## Tasks") (strL "## Tasks extra\nrest") = true
      ∧ appendToMd (strL "## Tasks extra\nrest") (strL "NEW") (some (strL "## Tasks"))
          = strL "## TasksNEW\n extra\nrest"
      ∧ strL "## TasksNEW\n extra\nrest" ≠ strL "## Tasks extra\nNEW\nrest" := by
  refine ⟨by decide, by decide, by decide⟩

/-- Claim C4 (corrected): insertion is anchored at the first occurrence of
the heading text.  When that first occurrence is immediately followed by a
newline (i.e. it ends its line), the fragment is inserted immediately after
that line, and appending two fragments in sequence under the same heading
puts the second fragment before the first, directly under the heading. -/
theorem c4_amended (c f1 f2 h : List Char) (p : Nat)
    (hne : h ≠ []) (hp : findSub h c = some p)
    (hnl : c.getD (p + h.length) 'a' = '\n') :
    appendToMd c f1 (some h)
        = c.take (p + h.length + 1) ++ f1 ++ '\n' :: c.drop (p + h.length + 1)
      ∧ appendToMd (appendToMd c f1 (some h)) f2 (some h)
        = c.take (p + h.length + 1)
            ++ f2 ++ '\n' :: (f1 ++ '\n' :: c.drop (p + h.length + 1)) := by
  have hlt : p + h.length < c.length := by
    by_contra hge
    rw [List.getD_eq_getElem?_getD, List.getElem?_eq_none (by omega), Option.getD_none] at hnl
    exact absurd hnl (by decide)
  have hmle : p + h.length + 1 ≤ c.length := by omega
  have h1 := appendToMd_insert_after_line c f1 h p hne hp hnl
  have hstab := findSub_insert_stable c f1 h p hp hlt
  have htake := take_insert_eq c f1 (p + h.length + 1) hmle
  have hdrop := drop_insert_eq c f1 (p + h.length + 1) hmle
  have hnl1 : (c.take (p + h.length + 1) ++ f1 ++ '\n' :: c.drop (p + h.length + 1)).getD
      (p + h.length) 'a' = '\n' := by
    rw [getD_agree_of_take_eq htake (by omega) 'a']
    exact hnl
  have h2 := appendToMd_insert_after_line
    (c.take (p + h.length + 1) ++ f1 ++ '\n' :: c.drop (p + h.length + 1)) f2 h p hne hstab hnl1
  refine ⟨h1, ?_⟩
  rw [h1, h2, htake, hdrop]

/-- Witness for `c4_amended`: two appends under `## Tasks` in a well-formed
file put the second fragment first. -/
theorem c4_amended_witness :
    (strL "## Tasks" ≠ [] ∧ findSub (strL "## Tasks") (strL "## Tasks\nold\n") = some 0
        ∧ (strL "## Tasks\nold\n").getD (0 + (strL "## Tasks").length) 'a' = '\n')
      ∧ appendToMd (appendToMd (strL "## Tasks\nold\n") (strL "A") (some (strL "## Tasks")))
            (strL "B") (some (strL "## Tasks"))
          = strL "## Tasks\nB\nA\nold\n" :=
  ⟨⟨by decide, by decide, by decide⟩,
   ((c4_amended (strL "## Tasks\nold\n") (strL "A") (strL "B") (strL "## Tasks") 0
        (by decide) (by decide) (by decide)).2).trans (by decide)⟩

/-- The router loop's counts are a pure fold over the routed items: skipped
items leave the dict untouched, each routed item bumps its type once. -/
theorem routeGo_counts (env : RouteEnv) :
    ∀ (items : List Item) (idx : Nat) (st : RouteState),
      (routeGo env idx items st).counts
        = (items.filter (fun it => (routeMap it.type).isSome)).foldl
            (fun m it => bumpCount it.type m) st.counts := by
  intro items
  induction items with
  | nil => intro idx st; rfl
  | cons it rest ih =>
    intro idx st
    cases hr : routeMap it.type with
    | none => simp [routeGo, hr, List.filter_cons, ih]
    | some r => simp [routeGo, hr, List.filter_cons, ih]

/-- Lookup after one bump of the Python dict. -/
theorem lookup_bump (t u : List Char) :
    ∀ m : List (List Char × Nat),
      lookupCount (bumpCount t m) u
        = if u = t then some ((lookupCount m u).getD 0 + 1) else lookupCount m u := by
  intro m
  induction m with
  | nil =>
    by_cases h : u = t
    · subst h; simp [bumpCount, lookupCount]
    · have h2 : ¬ t = u := fun hh => h hh.symm
      simp [bumpCount, lookupCount, h, h2]
  | cons kv rest ih =>
    obtain ⟨k, v⟩ := kv
    by_cases hkt : k = t
    · by_cases huk : k = u
      · have hut : u = t := huk.symm.trans hkt
        simp [bumpCount, lookupCount, hkt, huk, hut]
      · have hut : ¬ u = t := fun hh => huk (hkt.trans hh.symm)
        have htu : ¬ t = u := fun hh => huk (hkt.trans hh)
        simp [bumpCount, lookupCount, hkt, huk, hut, htu]
    · by_cases huk : k = u
      · have hut : ¬ u = t := fun hh => hkt (huk.trans hh)
        simp [bumpCount, lookupCount, hkt, huk, hut]
      · simp [bumpCount, lookupCount, hkt, huk, ih]

/-- Lookup after folding bumps over a list of items. -/
theorem lookup_foldl_bump (t : List Char) :
    ∀ (l : List Item) (m : List (List Char × Nat)),
      lookupCount (l.foldl (fun m it => bumpCount it.type m) m) t
        = if l.countP (fun it => decide (it.type = t)) = 0 then lookupCount m t
          else some ((lookupCount m t).getD 0
              + l.countP (fun it => decide (it.type = t))) := by
  intro l
  induction l with
  | nil => intro m; simp
  | cons it rest ih =>
    intro m
    rw [List.foldl_cons, ih, List.countP_cons, lookup_bump]
    by_cases h : it.type = t
    · have hd1 : decide (it.type = t) = true := by simp [h]
      rw [if_pos (show t = it.type from h.symm), if_pos hd1,
        if_neg (show ¬ (rest.countP (fun it => decide (it.type = t)) + 1 = 0) by omega)]
      by_cases hc : rest.countP (fun it => decide (it.type = t)) = 0
      · rw [if_pos hc, hc]
      · rw [if_neg hc]
        simp only [Option.getD_some]
        congr 1
        omega
    · have htne : ¬ (t = it.type) := fun hh => h hh.symm
      have hd0 : decide (it.type = t) = false := by simp [h]
      simp [htne, hd0]

/-- Counting one type among the routed items. -/
theorem countP_filter_routed (items : List Item) (t : List Char) :
    (items.filter (fun it => (routeMap it.type).isSome)).countP
        (fun it => decide (it.type = t))
      = if (routeMap t).isSome = true
        then items.countP (fun it => decide (it.type = t)) else 0 := by
  rw [List.countP_filter]
  by_cases hR : (routeMap t).isSome = true
  · rw [if_pos hR]
    apply List.countP_congr
    intro it _
    by_cases h : it.type = t
    · simp [h, hR]
    · simp [h]
  · rw [if_neg hR]
    rw [List.countP_eq_zero]
    intro it _
    by_cases h : it.type = t
    · simp [h, hR]
    · simp [h]

/-- Claim C9 (confirmed): for every item list and environment — whatever
TickTick configuration, booking store, per-item failures of daily-note,
extra-file, task or booking effects — the count map produced by
`route_items` has a key exactly for the types that occur and sit in the
routing table, with value the exact number of items of that type; types
outside the routing table get no key. -/
theorem c9_routing_counts (items : List Item) (summary src : List Char)
    (targetDate : Option (List Char)) (sysToday : List Char) (tt : Bool)
    (faq : List Char) (reply : Item → List Char)
    (fD fE fT fB : Nat → Bool) (store : List DFile) (nid : Nat) (t : List Char) :
    lookupCount
        (routeItems items summary src targetDate sysToday tt faq reply
          fD fE fT fB store nid).counts t
      = if (routeMap t).isSome = true
            ∧ 0 < items.countP (fun it => decide (it.type = t))
        then some (items.countP (fun it => decide (it.type = t))) else none := by
  have h0 : (routeItems items summary src targetDate sysToday tt faq reply
        fD fE fT fB store nid).counts
      = (items.filter (fun it => (routeMap it.type).isSome)).foldl
          (fun m it => bumpCount it.type m) [] := by
    rw [routeItems, routeGo_counts]
  rw [h0, lookup_foldl_bump, countP_filter_routed]
  by_cases hR : (routeMap t).isSome = true
  · rw [if_pos hR]
    by_cases hc : items.countP (fun it => decide (it.type = t)) = 0
    · rw [if_pos hc, if_neg (by omega)]
      rfl
    · rw [if_neg hc, if_pos ⟨hR, by omega⟩]
      simp [lookupCount]
  · rw [if_neg hR, if_pos rfl, if_neg (by rw [not_and_or]; exact Or.inl hR)]
    rfl

/-- `followUpsOf` distributes over trace concatenation. -/
theorem followUpsOf_append (a b : List Effect) :
    followUpsOf (a ++ b) = followUpsOf a ++ followUpsOf b :=
  List.filterMap_append a b _

/-- A choice between two non-follow-up effects records no follow-up. -/
theorem followUpsOf_ite (c : Prop) [Decidable c] (a b : Effect)
    (ha : followUpsOf [a] = []) (hb : followUpsOf [b] = []) :
    followUpsOf [if c then a else b] = [] := by
  by_cases h : c <;> simp [h, ha, hb]

/-- Claim C1 (code bug): the booking flow cannot resolve or create any
client record — every call of `handle_booking` raises `AttributeError`
before touching a file, because `drive_ops` defines neither `list_md_files`
(needed by `_find_existing_client_file`) nor `create_folder` (needed by the
`_find_clients_folder_id` fallback).  Whether or not the Clients folder
resolves, the call returns the error, never a store; in particular the
Scenario B behavior the claim describes (creating `maria-instagram.md` and
then appending to it) never occurs: the call on the Maria item yields the
AttributeError. -/
theorem c1_booking_attribute_error :
    strL "list_md_files" ∉ driveOpsFunctions
      ∧ strL "create_folder" ∉ driveOpsFunctions
      ∧ (∀ (fe : Bool) (item : Item) (src d faq rep : List Char) (store : List DFile)
          (fid : Nat),
          handleBookingChecked fe item src d faq rep store fid
            = Except.error (if fe = true
                then strL "module drive_ops has no attribute list_md_files"
                else strL "module drive_ops has no attribute create_folder"))
      ∧ handleBookingChecked true mariaItem1 (strL "shot1.png") (strL "2025-03-01") [] [] [] 0
          = Except.error (strL "module drive_ops has no attribute list_md_files") := by
  have hm : strL "list_md_files" ∉ driveOpsFunctions := by decide
  have hc : strL "create_folder" ∉ driveOpsFunctions := by decide
  refine ⟨hm, hc, ?_, rfl⟩
  intro fe item src d faq rep store fid
  cases fe
  · rw [handleBookingChecked, if_pos ⟨rfl, hc⟩]
    rfl
  · rw [handleBookingChecked, if_neg (fun hcon => Bool.noConfusion hcon.1),
      findExistingClientFileChecked, if_neg hm]
    rfl

/-- Claim C2 (code bug): the uniqueness invariant is never established —
`handle_booking` never returns a result (every call raises `AttributeError`
at the undefined `drive_ops.list_md_files` or `drive_ops.create_folder`
before any write), so processing a BOOKING item for an unseen identity
leaves the Clients folder without any record for it: zero records per booked
identity, not exactly one.  Concretely, the first booking for the
Cyrillic-named client on the empty folder errors out instead of creating a
record. -/
theorem c2_no_record_created :
    strL "list_md_files" ∉ driveOpsFunctions
      ∧ (∀ (fe : Bool) (item : Item) (src d faq rep : List Char) (store : List DFile)
          (fid : Nat),
          (handleBookingChecked fe item src d faq rep store fid).isOk = false)
      ∧ handleBookingChecked true cyrItem1 (strL "a.png") (strL "2025-03-01") [] [] [] 0
          = Except.error (strL "module drive_ops has no attribute list_md_files") := by
  have hm : strL "list_md_files" ∉ driveOpsFunctions := by decide
  have hc : strL "create_folder" ∉ driveOpsFunctions := by decide
  refine ⟨hm, ?_, rfl⟩
  intro fe item src d faq rep store fid
  cases fe
  · rw [handleBookingChecked, if_pos ⟨rfl, hc⟩]
    rfl
  · rw [handleBookingChecked, if_neg (fun hcon => Bool.noConfusion hcon.1),
      findExistingClientFileChecked, if_neg hm]
    rfl

/-- An item whose booking call raises records no follow-up task. -/
theorem followUpsOf_itemActions_raise (env : RouteEnv) (idx : Nat) (it : Item)
    (r : RouteEntry) (store : List DFile) (nid : Nat)
    (hfb : env.failBooking idx = true) :
    followUpsOf (itemActions env idx it r store nid).1 = [] := by
  have he1 : followUpsOf (match r.daily_note_heading with
      | some h => [if env.failDaily idx then Effect.dailyFailed
          else Effect.dailyApp h (formatItem it env.src env.summary env.sysToday)]
      | none => []) = [] := by
    cases r.daily_note_heading with
    | none => rfl
    | some h => exact followUpsOf_ite _ _ _ rfl rfl
  have he2 : followUpsOf (match r.extra_file with
      | some p => [if env.failExtra idx then Effect.extraFailed p
          else Effect.extraApp p (formatItem it env.src env.summary env.sysToday)]
      | none => []) = [] := by
    cases r.extra_file with
    | none => rfl
    | some p => exact followUpsOf_ite _ _ _ rfl rfl
  have he3 : ∀ (c : Prop) (inst : Decidable c), followUpsOf (@ite _ c inst
      [if env.failTask idx then Effect.taskFailed else Effect.taskNew it] []) = [] := by
    intro c inst
    by_cases h : c
    · rw [if_pos h]
      exact followUpsOf_ite _ _ _ rfl rfl
    · rw [if_neg h]
      rfl
  have hbf : followUpsOf [Effect.bookingFailed] = [] := rfl
  by_cases hb : r.booking = true
  · simp only [itemActions, hb, hfb, if_true, followUpsOf_append, he1, he2, he3 _ _, hbf,
      List.nil_append, List.append_nil]
  · simp only [itemActions, hb, Bool.false_eq_true, if_false, followUpsOf_append,
      he1, he2, he3 _ _, List.nil_append, List.append_nil]

/-- When the booking call raises on every item — as it does in this source —
the router loop records no follow-up task at all. -/
theorem routeGo_no_followUps (env : RouteEnv) (hfb : ∀ i, env.failBooking i = true) :
    ∀ (items : List Item) (idx : Nat) (st : RouteState),
      followUpsOf (routeGo env idx items st).trace = followUpsOf st.trace := by
  intro items
  induction items with
  | nil => intro idx st; rfl
  | cons it rest ih =>
    intro idx st
    cases hr : routeMap it.type with
    | none => simp [routeGo, hr, ih]
    | some r =>
      simp only [routeGo, hr]
      rw [ih]
      simp only [followUpsOf_append,
        followUpsOf_itemActions_raise env idx it r st.store st.nextId (hfb idx),
        List.append_nil]

/-- Claim C8 (code bug): no BOOKING item ever enqueues a follow-up task.
The follow-up block of `route_items` runs after `handle_booking` inside the
same `try`, and `handle_booking` raises `AttributeError` on every call (the
module `drive_ops` defines no `list_md_files`), so the booking `try` block
always fails before the enqueue: for every item list and environment, the
trace of `route_items` under the program's actual booking behavior (the
failure oracle constantly true) contains zero follow-up tasks. -/
theorem c8_no_followup_enqueued :
    strL "list_md_files" ∉ driveOpsFunctions
      ∧ ∀ (items : List Item) (summary src : List Char) (targetDate : Option (List Char))
          (sysToday : List Char) (tt : Bool) (faq : List Char) (reply : Item → List Char)
          (fD fE fT : Nat → Bool) (store : List DFile) (nid : Nat),
          followUpsOf (routeItems items summary src targetDate sysToday tt faq reply
              fD fE fT (fun _ => true) store nid).trace = [] := by
  refine ⟨by decide, ?_⟩
  intro items summary src targetDate sysToday tt faq reply fD fE fT store nid
  rw [routeItems, routeGo_no_followUps _ (fun i => rfl)]
  rfl
